import Mathlib

/-!
Shallow embedding of `demos/8_nlp_defend/main.py`: a two-stage demo pipeline
that corrects a sentence through a remote chat-completion API and then
classifies the corrected sentence's sentiment with a local 3-class
transformer model.

External collaborators are abstracted as parameters:
  * the tokenizer plus model forward pass appears as a function from the
    tokenized batch to one row of three logits per sequence (floats are
    modelled as real numbers);
  * the remote chat-completion call appears as a function from the request
    to either a parsed response or a raised exception.
Everything the script itself does — the softmax/argmax post-processing, the
label table with its fallback, the per-result probability dict, Python's
`zip` over the `texts` argument (which iterates characters when `texts` is
a single string), the guarded extraction and `.strip()` in the correction
stage, the import-time environment reads, and the `__main__` print loop —
is embedded from the source.
-/

/-- Whitespace characters recognised by Python's `str.strip()`
(the ASCII ones). -/
def isPySpace (c : Char) : Bool :=
  c == ' ' || c == '\t' || c == '\n' || c == '\r' || c == '\x0b' || c == '\x0c'

/-- Python `str.strip()` on the underlying character list: drop whitespace
from the front, then from the back. -/
def stripChars (l : List Char) : List Char :=
  ((l.dropWhile isPySpace).reverse.dropWhile isPySpace).reverse

/-- Python `str.strip()`. -/
def pyStrip (s : String) : String := ⟨stripChars s.data⟩

/-- The dict `LABEL_MAPPING = {0: "Negative", 1: "Neutral", 2: "Positive"}`
(main.py line 31), as a partial map the way a Python dict is. -/
def LABEL_MAPPING : Nat → Option String
  | 0 => some "Negative"
  | 1 => some "Neutral"
  | 2 => some "Positive"
  | _ => none

/-- `LABEL_MAPPING.get(pred, f"Label-...")` (main.py line 69): the mapped
label, or the synthetic fallback embedding the raw index. -/
def labelOf (pred : Nat) : String :=
  (LABEL_MAPPING pred).getD ("Label-" ++ toString pred)

/-- The `texts` argument of `predict_sentiment`. Python accepts both a
single string and a list of strings here, and the two behave differently
downstream: the tokenizer batches a single string as one sequence, while
`zip(texts, ...)` iterates a string character by character. -/
inductive TextsInput where
  | str (s : String)
  | list (l : List String)

/-- The batch the HuggingFace tokenizer encodes from `texts`: a single
string becomes one sequence, a list one sequence per element. -/
def toBatch : TextsInput → List String
  | .str s => [s]
  | .list l => l

/-- Iterating `texts` in Python (`zip(texts, predictions, probs)`):
a string yields its characters as one-character strings, a list yields its
elements. -/
def pyIter : TextsInput → List String
  | .str s => s.data.map (fun c => String.mk [c])
  | .list l => l

/-- Python `zip` of three sequences: pairs up elements and stops at the
shortest. -/
def zip3 {α β γ : Type} : List α → List β → List γ → List (α × β × γ)
  | x :: xs, y :: ys, z :: zs => (x, y, z) :: zip3 xs ys zs
  | _, _, _ => []

/-- `F.softmax(outputs.logits, dim=-1)` on one row of three logits. -/
noncomputable def softmax3 (l : ℝ × ℝ × ℝ) : ℝ × ℝ × ℝ :=
  (Real.exp l.1 / (Real.exp l.1 + Real.exp l.2.1 + Real.exp l.2.2),
   Real.exp l.2.1 / (Real.exp l.1 + Real.exp l.2.1 + Real.exp l.2.2),
   Real.exp l.2.2 / (Real.exp l.1 + Real.exp l.2.1 + Real.exp l.2.2))

/-- `probs.argmax(axis=1)` on one row: numpy returns the first index
attaining the maximum. -/
noncomputable def npArgmax (p : ℝ × ℝ × ℝ) : Nat :=
  if p.1 < p.2.1 then (if p.2.1 < p.2.2 then 2 else 1)
  else (if p.1 < p.2.2 then 2 else 0)

/-- The per-result dict built at main.py lines 71-75, in insertion order
(Python dicts preserve it). -/
def prob_mapping (p : ℝ × ℝ × ℝ) : List (String × ℝ) :=
  [("Negative", p.1), ("Neutral", p.2.1), ("Positive", p.2.2)]

/-- The mutable state of the loaded `nn.Module` that `predict_sentiment`
touches: `model.to(device)` moves the parameters in place and
`model.eval()` assigns the training flag in place. -/
structure TorchModule where
  device : String
  training : Bool
deriving DecidableEq

/-- The model as `from_pretrained` returns it at process start: parameters
on the CPU, and already in evaluation mode — `from_pretrained` calls
`model.eval()` before returning. -/
def loadedModel : TorchModule := ⟨"cpu", false⟩

/-- `predict_sentiment` (main.py lines 39-77). `modelLogits` abstracts the
tokenizer plus the model forward pass, giving one row of three logits per
sequence of the tokenized batch. The function's own steps are embedded:
the in-place `model.to(device)` and `model.eval()` (the updated module is
returned as the second component), softmax, argmax per row, the label
lookup with its fallback, the probability dict, and the `zip` over
`texts`. -/
noncomputable def predict_sentiment
    (modelLogits : List String → List (ℝ × ℝ × ℝ))
    (texts : TextsInput) (model : TorchModule) (device : String) :
    List (String × String × List (String × ℝ)) × TorchModule :=
  let model := { model with device := device }
  let model := { model with training := false }
  let probs := (modelLogits (toBatch texts)).map softmax3
  let predictions := probs.map npArgmax
  (((zip3 (pyIter texts) predictions probs).map fun tpp =>
      (tpp.1, labelOf tpp.2.1, prob_mapping tpp.2.2)), model)

/-- The message object inside a chat-completion choice; its content may be
null. -/
structure ChatMessage where
  content : Option String

/-- One choice of a chat-completion response. -/
structure ChatChoice where
  message : ChatMessage

/-- A chat-completion response: a list of choices, possibly empty. -/
structure ChatResponse where
  choices : List ChatChoice

/-- The request `_fix_sentence` sends: model identifier, role-tagged
messages, temperature and generation cap. -/
structure ChatRequest where
  model : String
  messages : List (String × String)
  temperature : ℚ
  max_tokens : Nat

/-- The outcome of `openai.chat.completions.create`: a parsed response, or
any raised exception (network error, API error, malformed reply). -/
inductive ChatOutcome where
  | ok (resp : ChatResponse)
  | exn

/-- The two-message conversation `_fix_sentence` builds (main.py
lines 82-86). -/
def fixMessages (context : String) : List (String × String) :=
  [("system", "You are a helpful spell checker and grammar assistant. Provide the corrected sentence without any additional text."),
   ("user", "This sentence has some spelling errors and grammatical errors::\n" ++ context)]

/-- The full request of main.py lines 88-93: the configured model,
the two messages, temperature 0 and max_tokens 1024. -/
def fixRequest (modelName context : String) : ChatRequest :=
  ⟨modelName, fixMessages context, 0, 1024⟩

/-- `_fix_sentence` (main.py lines 80-101). The remote call is abstracted
as `call`; embedded are the request construction, the guarded extraction
of the first choice's content — Python truthiness makes a missing first
choice, a null content and an empty content all fall back to `""` — the
final `.strip()`, and the broad `except` returning `""`. -/
def _fix_sentence (call : ChatRequest → ChatOutcome) (modelName : String)
    (context : String) : String :=
  match call (fixRequest modelName context) with
  | .exn => ""
  | .ok resp =>
    let choice := resp.choices.head?
    let text :=
      match choice with
      | some c =>
        match c.message.content with
        | some s => if s = "" then "" else s
        | none => ""
      | none => ""
    pyStrip text

/-- The environment configuration read at import time (main.py
lines 20-21). -/
structure Config where
  api_key : String
  openai_model : String
deriving DecidableEq

/-- The import-time environment reads: `os.environ["OPENAI_API_KEY"]`
raises `KeyError` when the variable is absent, and
`os.getenv("OPENAI_MODEL", "gpt-4.1-mini")` falls back to the hardcoded
default. -/
def initEnv (env : String → Option String) : Except String Config :=
  match env "OPENAI_API_KEY" with
  | none => .error "KeyError: OPENAI_API_KEY"
  | some key => .ok ⟨key, (env "OPENAI_MODEL").getD "gpt-4.1-mini"⟩

/-- The three example sentences of the `__main__` block (main.py
lines 121-125), in their listed order. -/
def demoTexts : List String :=
  ["'Misery' was the best movie I've seen since I was a small boy",
   "'Misery' was the bset moive I've seen snice I was a small boy",
   "'Misery' was the bset moive I've seen snice me were a small boy"]

/-- One printed line. Every print renders a fully determined string except
the probability lines, where the float is rendered with the `.4f` format;
the numeric value is kept next to its sentiment name, the four-decimal
rendering being a property of float formatting outside the embedding. -/
inductive Out where
  | plain (s : String)
  | prob (sentiment : String) (p : ℝ)

/-- One iteration of the `__main__` loop (main.py lines 121-138): print
the original, fix it, print the fixed text, classify the fixed text —
passed as a bare string, exactly as the driver does — then print each
result's text, predicted label and probability lines. Returns the printed
lines together with the module state after the call. -/
noncomputable def driverStep (call : ChatRequest → ChatOutcome)
    (modelName : String) (modelLogits : List String → List (ℝ × ℝ × ℝ))
    (device : String) (st : TorchModule) (text : String) :
    List Out × TorchModule :=
  let fixed_text := _fix_sentence call modelName text
  let rs := predict_sentiment modelLogits (.str fixed_text) st device
  (Out.plain ("Original Text: " ++ text) ::
   Out.plain ("Fixed Text: " ++ fixed_text) ::
   Out.plain "\n" ::
   ((rs.1.flatMap fun r =>
      Out.plain ("Text: " ++ r.1) ::
      Out.plain ("Predicted Sentiment: " ++ r.2.1) ::
      ((r.2.2.map fun sp => Out.prob sp.1 sp.2) ++ [Out.plain "\n"])) ++
    [Out.plain "\n"]),
   rs.2)

/-- The `__main__` loop over the example sentences, threading the module
state (the script reuses the one global model object). -/
noncomputable def driverLoop (call : ChatRequest → ChatOutcome)
    (modelName : String) (modelLogits : List String → List (ℝ × ℝ × ℝ))
    (device : String) : List String → TorchModule → List Out × TorchModule
  | [], st => ([], st)
  | t :: ts, st =>
    let step := driverStep call modelName modelLogits device st t
    let rest := driverLoop call modelName modelLogits device ts step.2
    (step.1 ++ rest.1, rest.2)

/-- Everything `__main__` prints: the device banner, then the three
iterations starting from the freshly loaded model. -/
noncomputable def mainOutputs (call : ChatRequest → ChatOutcome)
    (modelName : String) (modelLogits : List String → List (ℝ × ℝ × ℝ))
    (device : String) : List Out :=
  Out.plain ("Using device: " ++ device) ::
  (driverLoop call modelName modelLogits device demoTexts loadedModel).1

/-- The whole program: the import-time environment reads run first, so a
missing API credential raises before anything is printed; otherwise
`__main__` runs with the configured model identifier. -/
noncomputable def runMain (env : String → Option String)
    (call : ChatRequest → ChatOutcome)
    (modelLogits : List String → List (ℝ × ℝ × ℝ)) (device : String) :
    Except String (List Out) :=
  match initEnv env with
  | .error e => .error e
  | .ok cfg => .ok (mainOutputs call cfg.openai_model modelLogits device)

/-- A correction-stage stub whose remote call always raises (a mocked
network failure). -/
def exnCall : ChatRequest → ChatOutcome := fun _ => .exn

/-- A correction-stage stub whose remote call always succeeds with the
given completion text. -/
def okCall (reply : String) : ChatRequest → ChatOutcome :=
  fun _ => .ok ⟨[⟨⟨some reply⟩⟩]⟩

/-- A model stub returning one row of all-zero logits for any batch. -/
def constLogits : List String → List (ℝ × ℝ × ℝ) := fun _ => [(0, 0, 0)]

/-! ### Helper lemmas about trimming -/

theorem dropWhile_stable {α : Type} (p : α → Bool) (l : List α) :
    List.dropWhile p (List.dropWhile p l) = List.dropWhile p l := by
  have h := List.head?_dropWhile_not p l
  cases hd : List.dropWhile p l with
  | nil => rfl
  | cons a t =>
    rw [hd] at h
    simp at h
    rw [List.dropWhile_cons, if_neg (by simp [h])]

theorem head_false_of_dropWhile {α : Type} {p : α → Bool} {l t : List α} {a : α}
    (hd : List.dropWhile p l = a :: t) : p a = false := by
  have h := List.head?_dropWhile_not p l
  rw [hd] at h
  simpa using h

/-- The right half of `str.strip()`: drop trailing whitespace. -/
def rstripChars (l : List Char) : List Char :=
  (l.reverse.dropWhile isPySpace).reverse

theorem stripChars_eq (l : List Char) :
    stripChars l = rstripChars (l.dropWhile isPySpace) := rfl

theorem rstrip_stable (l : List Char) :
    rstripChars (rstripChars l) = rstripChars l := by
  unfold rstripChars
  rw [List.reverse_reverse, dropWhile_stable]

theorem rstrip_cons (a : Char) (t : List Char) (h : isPySpace a = false) :
    rstripChars (a :: t) = a :: rstripChars t := by
  unfold rstripChars
  rw [List.reverse_cons, List.dropWhile_append]
  cases he : (List.dropWhile isPySpace t.reverse).isEmpty with
  | true =>
    have ht : List.dropWhile isPySpace t.reverse = [] := by
      simpa [List.isEmpty_iff] using he
    simp [he, ht, List.dropWhile_cons, h]
  | false =>
    simp [he]

theorem stripChars_stable (l : List Char) :
    stripChars (stripChars l) = stripChars l := by
  rw [stripChars_eq, stripChars_eq]
  cases hd : List.dropWhile isPySpace l with
  | nil => simp [rstripChars]
  | cons a t =>
    have ha := head_false_of_dropWhile hd
    rw [rstrip_cons a t ha, List.dropWhile_cons, if_neg (by simp [ha]),
      rstrip_cons a _ ha, rstrip_stable]

theorem pyStrip_stable (s : String) : pyStrip (pyStrip s) = pyStrip s :=
  congrArg String.mk (stripChars_stable s.data)

theorem pyStrip_empty : pyStrip "" = "" := rfl

/-! ### Helper lemmas about zip3 -/

theorem zip3_nil_left {α β γ : Type} (y : List β) (z : List γ) :
    zip3 ([] : List α) y z = [] := by
  cases y <;> cases z <;> rfl

theorem zip3_nil_mid {α β γ : Type} (x : List α) (z : List γ) :
    zip3 x ([] : List β) z = [] := by
  cases x <;> cases z <;> rfl

theorem zip3_cons {α β γ : Type} (x : α) (y : β) (z : γ)
    (xs : List α) (ys : List β) (zs : List γ) :
    zip3 (x :: xs) (y :: ys) (z :: zs) = (x, y, z) :: zip3 xs ys zs := rfl

theorem mem_zip3_map {α β γ : Type} (f : γ → β) :
    ∀ (as : List α) (qs : List γ) (x : α × β × γ),
      x ∈ zip3 as (qs.map f) qs → x.2.1 = f x.2.2 ∧ x.2.2 ∈ qs
  | [], qs, x, h => by rw [zip3_nil_left] at h; cases h
  | _ :: _, [], x, h => by rw [List.map_nil, zip3_nil_mid] at h; cases h
  | a :: as, q :: qs, x, h => by
    rw [List.map_cons, zip3_cons] at h
    rcases List.mem_cons.mp h with h | h
    · subst h; exact ⟨rfl, List.mem_cons_self _ _⟩
    · obtain ⟨h1, h2⟩ := mem_zip3_map f as qs x h
      exact ⟨h1, List.mem_cons_of_mem _ h2⟩

/-! ### Claims about the correction stage -/

/-- C2: for every input text the correction stage returns a string, never an
absent value: on success the completion text trimmed of leading and trailing
whitespace, and on every failure mode — raised exception (network or API
error), empty choices list, null content, empty content — exactly `""`. -/
theorem fix_sentence_contract (call : ChatRequest → ChatOutcome)
    (modelName context : String) :
    (call (fixRequest modelName context) = .exn →
      _fix_sentence call modelName context = "") ∧
    (∀ resp, call (fixRequest modelName context) = .ok resp →
      (resp.choices = [] → _fix_sentence call modelName context = "") ∧
      (∀ c, resp.choices.head? = some c →
        (c.message.content = none → _fix_sentence call modelName context = "") ∧
        (c.message.content = some "" → _fix_sentence call modelName context = "") ∧
        (∀ s, c.message.content = some s → s ≠ "" →
          _fix_sentence call modelName context = pyStrip s))) := by
  refine ⟨fun h => by simp [_fix_sentence, h], fun resp h => ?_⟩
  refine ⟨fun hc => by simp [_fix_sentence, h, hc, pyStrip_empty], fun c hc => ?_⟩
  exact ⟨fun hn => by simp [_fix_sentence, h, hc, hn, pyStrip_empty],
    fun he => by simp [_fix_sentence, h, hc, he, pyStrip_empty],
    fun s hs hne => by simp [_fix_sentence, h, hc, hs, hne]⟩

/-- C2 witness: a successful completion with padded text comes back
trimmed. -/
theorem fix_sentence_contract_witness :
    _fix_sentence (okCall " The corrected sentence. ") "gpt-4.1-mini" "teh" =
      pyStrip " The corrected sentence. " :=
  ((((fix_sentence_contract (okCall " The corrected sentence. ")
      "gpt-4.1-mini" "teh").2 ⟨[⟨⟨some " The corrected sentence. "⟩⟩]⟩ rfl).2
      ⟨⟨some " The corrected sentence. "⟩⟩ rfl).2.2
      " The corrected sentence. " rfl (by decide))

/-- C10: every string the correction stage returns, on the success path as
on every failure path, is a fixed point of whitespace trimming. -/
theorem fix_sentence_trimmed (call : ChatRequest → ChatOutcome)
    (modelName context : String) :
    pyStrip (_fix_sentence call modelName context) =
      _fix_sentence call modelName context := by
  unfold _fix_sentence
  cases call (fixRequest modelName context) with
  | exn => rfl
  | ok resp => exact pyStrip_stable _

/-! ### Claims about the label mapping and the environment -/

/-- C6: the label mapping is the fixed, closed map 0 to Negative, 1 to
Neutral, 2 to Positive, and any other index falls back to a synthetic label
embedding the raw index. -/
theorem label_mapping_spec :
    (labelOf 0 = "Negative" ∧ labelOf 1 = "Neutral" ∧ labelOf 2 = "Positive") ∧
    ∀ n, 2 < n → labelOf n = "Label-" ++ toString n := by
  refine ⟨⟨rfl, rfl, rfl⟩, fun n hn => ?_⟩
  obtain ⟨m, rfl⟩ : ∃ m, n = m + 3 := ⟨n - 3, by omega⟩
  rfl

/-- C6 witness: the fallback at the out-of-range index 7. -/
theorem label_mapping_spec_witness : labelOf 7 = "Label-" ++ toString 7 :=
  label_mapping_spec.2 7 (by norm_num)

/-- C8: a missing API credential fails at import time, before any sentence
is processed; with the credential present, startup proceeds and the remote
model identifier comes from the optional variable or else the hardcoded
default. -/
theorem env_config_spec (env : String → Option String) :
    (env "OPENAI_API_KEY" = none →
      initEnv env = .error "KeyError: OPENAI_API_KEY" ∧
      ∀ call modelLogits device, runMain env call modelLogits device =
        .error "KeyError: OPENAI_API_KEY") ∧
    (∀ key, env "OPENAI_API_KEY" = some key →
      (env "OPENAI_MODEL" = none → initEnv env = .ok ⟨key, "gpt-4.1-mini"⟩) ∧
      (∀ m, env "OPENAI_MODEL" = some m → initEnv env = .ok ⟨key, m⟩) ∧
      ∀ call modelLogits device, runMain env call modelLogits device =
        .ok (mainOutputs call ((env "OPENAI_MODEL").getD "gpt-4.1-mini")
          modelLogits device)) := by
  refine ⟨fun h => ⟨by simp [initEnv, h],
      fun call ml dev => by simp [runMain, initEnv, h]⟩,
    fun key hk => ⟨fun hm => by simp [initEnv, hk, hm],
      fun m hm => by simp [initEnv, hk, hm],
      fun call ml dev => by simp [runMain, initEnv, hk]⟩⟩

/-- C8 witness: with no environment at all the program raises the KeyError
before printing anything. -/
theorem env_config_spec_witness :
    runMain (fun _ => none) exnCall constLogits "cpu" =
      .error "KeyError: OPENAI_API_KEY" :=
  ((env_config_spec (fun _ => none)).1 rfl).2 exnCall constLogits "cpu"

/-! ### Claims about the sentiment stage -/

/-- C4: the three probabilities of every result the sentiment stage
returns — the values of its Negative/Neutral/Positive dict — are
non-negative and sum to exactly 1, being a softmax distribution (the
real-valued model of the float computation makes the sum exact). -/
theorem result_probs_sum_one (modelLogits : List String → List (ℝ × ℝ × ℝ))
    (texts : TextsInput) (st : TorchModule) (device : String)
    (r : String × String × List (String × ℝ))
    (hr : r ∈ (predict_sentiment modelLogits texts st device).1) :
    (∀ p ∈ r.2.2.map Prod.snd, 0 ≤ p) ∧ (r.2.2.map Prod.snd).sum = 1 := by
  have hr' : r ∈ (zip3 (pyIter texts)
      (((modelLogits (toBatch texts)).map softmax3).map npArgmax)
      ((modelLogits (toBatch texts)).map softmax3)).map
        (fun tpp => (tpp.1, labelOf tpp.2.1, prob_mapping tpp.2.2)) := hr
  obtain ⟨tpp, htpp, rfl⟩ := List.mem_map.mp hr'
  obtain ⟨-, hq⟩ := mem_zip3_map npArgmax _ _ tpp htpp
  obtain ⟨row, -, hrow⟩ := List.mem_map.mp hq
  have hz : (0:ℝ) < Real.exp row.1 + Real.exp row.2.1 + Real.exp row.2.2 := by
    positivity
  have hz' : Real.exp row.1 + Real.exp row.2.1 + Real.exp row.2.2 ≠ 0 :=
    ne_of_gt hz
  constructor
  · intro p hp
    simp only [prob_mapping, List.map_cons, List.map_nil, List.mem_cons,
      List.not_mem_nil, or_false] at hp
    rcases hp with h | h | h <;> subst h <;> rw [← hrow] <;> simp [softmax3] <;>
      positivity
  · simp only [prob_mapping, List.map_cons, List.map_nil, List.sum_cons,
      List.sum_nil, ← hrow, softmax3]
    field_simp
    ring

/-- C4 witness: the single result of a batch of one with all-zero logits. -/
theorem result_probs_sum_one_witness :
    (∀ p ∈ (("x", labelOf (npArgmax (softmax3 (0, 0, 0))),
        prob_mapping (softmax3 (0, 0, 0))) :
          String × String × List (String × ℝ)).2.2.map Prod.snd, 0 ≤ p) ∧
    ((("x", labelOf (npArgmax (softmax3 (0, 0, 0))),
        prob_mapping (softmax3 (0, 0, 0))) :
          String × String × List (String × ℝ)).2.2.map Prod.snd).sum = 1 :=
  result_probs_sum_one constLogits (.list ["x"]) loadedModel "cpu"
    ("x", labelOf (npArgmax (softmax3 (0, 0, 0))), prob_mapping (softmax3 (0, 0, 0)))
    (List.mem_singleton.mpr rfl)

/-- C3: every result's predicted label is the argmax class index mapped
through the label table, and the label's entry in the returned probability
dict is the maximum of the three probabilities. -/
theorem predicted_label_is_max (modelLogits : List String → List (ℝ × ℝ × ℝ))
    (texts : TextsInput) (st : TorchModule) (device : String)
    (r : String × String × List (String × ℝ))
    (hr : r ∈ (predict_sentiment modelLogits texts st device).1) :
    (∃ q, r.2.1 = labelOf (npArgmax q) ∧ r.2.2 = prob_mapping q) ∧
    ∃ m, r.2.2.lookup r.2.1 = some m ∧ ∀ p ∈ r.2.2.map Prod.snd, p ≤ m := by
  have hr' : r ∈ (zip3 (pyIter texts)
      (((modelLogits (toBatch texts)).map softmax3).map npArgmax)
      ((modelLogits (toBatch texts)).map softmax3)).map
        (fun tpp => (tpp.1, labelOf tpp.2.1, prob_mapping tpp.2.2)) := hr
  obtain ⟨tpp, htpp, rfl⟩ := List.mem_map.mp hr'
  obtain ⟨hpred, -⟩ := mem_zip3_map npArgmax _ _ tpp htpp
  refine ⟨⟨tpp.2.2, by rw [hpred], rfl⟩, ?_⟩
  by_cases h1 : tpp.2.2.1 < tpp.2.2.2.1
  · by_cases h2 : tpp.2.2.2.1 < tpp.2.2.2.2
    · have hm : tpp.2.1 = 2 := by rw [hpred]; simp [npArgmax, h1, h2]
      refine ⟨tpp.2.2.2.2, by simp [hm, labelOf, LABEL_MAPPING, prob_mapping,
        List.lookup], ?_⟩
      intro p hp
      simp [prob_mapping] at hp
      rcases hp with h | h | h <;> subst h <;> linarith
    · have hm : tpp.2.1 = 1 := by rw [hpred]; simp [npArgmax, h1, h2]
      refine ⟨tpp.2.2.2.1, by simp [hm, labelOf, LABEL_MAPPING, prob_mapping,
        List.lookup], ?_⟩
      intro p hp
      simp [prob_mapping] at hp
      rcases hp with h | h | h <;> subst h <;> linarith
  · by_cases h2 : tpp.2.2.1 < tpp.2.2.2.2
    · have hm : tpp.2.1 = 2 := by rw [hpred]; simp [npArgmax, h1, h2]
      refine ⟨tpp.2.2.2.2, by simp [hm, labelOf, LABEL_MAPPING, prob_mapping,
        List.lookup], ?_⟩
      intro p hp
      simp [prob_mapping] at hp
      rcases hp with h | h | h <;> subst h <;> linarith
    · have hm : tpp.2.1 = 0 := by rw [hpred]; simp [npArgmax, h1, h2]
      refine ⟨tpp.2.2.1, by simp [hm, labelOf, LABEL_MAPPING, prob_mapping,
        List.lookup], ?_⟩
      intro p hp
      simp [prob_mapping] at hp
      rcases hp with h | h | h <;> subst h <;> linarith

/-- C3 witness: the same concrete batch of one, with the label's dict entry
maximal. -/
theorem predicted_label_is_max_witness :
    (∃ q, (("good", labelOf (npArgmax (softmax3 (0, 0, 0))),
        prob_mapping (softmax3 (0, 0, 0))) :
          String × String × List (String × ℝ)).2.1 = labelOf (npArgmax q) ∧
      (("good", labelOf (npArgmax (softmax3 (0, 0, 0))),
        prob_mapping (softmax3 (0, 0, 0))) :
          String × String × List (String × ℝ)).2.2 = prob_mapping q) ∧
    ∃ m, (("good", labelOf (npArgmax (softmax3 (0, 0, 0))),
        prob_mapping (softmax3 (0, 0, 0))) :
          String × String × List (String × ℝ)).2.2.lookup
        (("good", labelOf (npArgmax (softmax3 (0, 0, 0))),
          prob_mapping (softmax3 (0, 0, 0))) :
            String × String × List (String × ℝ)).2.1 = some m ∧
      ∀ p ∈ (("good", labelOf (npArgmax (softmax3 (0, 0, 0))),
        prob_mapping (softmax3 (0, 0, 0))) :
          String × String × List (String × ℝ)).2.2.map Prod.snd, p ≤ m :=
  predicted_label_is_max constLogits (.list ["good"]) loadedModel "cpu"
    ("good", labelOf (npArgmax (softmax3 (0, 0, 0))), prob_mapping (softmax3 (0, 0, 0)))
    (List.mem_singleton.mpr rfl)

/-- C5: a failed correction returns exactly the empty string, and the
driver's subsequent sentiment call on that empty string runs and returns —
the zip over the empty string yields an empty result list, no error. -/
theorem empty_fix_then_sentiment (call : ChatRequest → ChatOutcome)
    (modelName context : String) (modelLogits : List String → List (ℝ × ℝ × ℝ))
    (st : TorchModule) (device : String)
    (h : call (fixRequest modelName context) = .exn) :
    _fix_sentence call modelName context = "" ∧
    (predict_sentiment modelLogits
      (.str (_fix_sentence call modelName context)) st device).1 = [] := by
  have hfix : _fix_sentence call modelName context = "" := by
    simp [_fix_sentence, h]
  refine ⟨hfix, ?_⟩
  rw [hfix]
  rfl

/-- C5 witness: the mocked network failure, then the sentiment stage on the
resulting empty string. -/
theorem empty_fix_then_sentiment_witness :
    _fix_sentence exnCall "gpt-4.1-mini" "hello wrold" = "" ∧
    (predict_sentiment constLogits
      (.str (_fix_sentence exnCall "gpt-4.1-mini" "hello wrold"))
      loadedModel "cpu").1 = [] :=
  empty_fix_then_sentiment exnCall "gpt-4.1-mini" "hello wrold" constLogits
    loadedModel "cpu" rfl

/-- C1, evaluated at the failing input: invoked the way the driver invokes
it — on a bare corrected sentence instead of a list — the sentiment stage
returns a single result whose text component is the first character of the
sentence, not the sentence that was passed in. -/
theorem predict_on_string_truncates :
    ((predict_sentiment constLogits (.str "Misery was the best movie")
        loadedModel "cpu").1.map Prod.fst = ["M"]) ∧
    ("M" : String) ≠ "Misery was the best movie" := by
  exact ⟨rfl, by decide⟩

/-! ### Claims about the module state -/

/-- C7 counterexample: on an accelerator host — the driver picks the cuda
device when it is available (main.py line 118) — the first invocation of
the sentiment stage mutates the loaded model in place: `model.to(device)`
moves the module from the CPU, where `from_pretrained` left it, to the
accelerator. The model is therefore not read-only after load, and its
placement changes after startup, inside the sentiment stage. -/
theorem model_state_mutated :
    (predict_sentiment constLogits (.list []) loadedModel "cuda").2 ≠
      loadedModel := by
  simp [predict_sentiment, loadedModel]

/-- C7 amended: the sentiment stage's only mutations of the module are the
idempotent `model.to(device)` and `model.eval()` calls — after any
invocation the module state is exactly (chosen device, eval mode), so every
later invocation with the startup-chosen device leaves it unchanged.
Since `from_pretrained` already returns the model in eval mode on the CPU,
on a CPU host the first invocation changes nothing at all, and on an
accelerator host only the first invocation changes the state (moving the
placement to the chosen device). The returned results never depend on the
module state, and the tokenizer is never touched at all. -/
theorem model_state_stable (modelLogits modelLogits' : List String → List (ℝ × ℝ × ℝ))
    (texts texts' : TextsInput) (st st' : TorchModule) (device : String) :
    (predict_sentiment modelLogits texts loadedModel "cpu").2 = loadedModel ∧
    (predict_sentiment modelLogits texts st device).2 = ⟨device, false⟩ ∧
    (predict_sentiment modelLogits' texts'
      (predict_sentiment modelLogits texts st device).2 device).2 =
      (predict_sentiment modelLogits texts st device).2 ∧
    (predict_sentiment modelLogits texts st device).1 =
      (predict_sentiment modelLogits texts st' device).1 :=
  ⟨rfl, rfl, rfl, rfl⟩

/-! ### Claims about the driver -/

/-- C9 counterexample: when the correction stage fails on every sentence
(a remote call that always raises), each returned corrected text is the
empty string, the sentiment stage yields no results for it, and the driver
prints no predicted label and no probability line for any of the three
sentences — only the original text, the empty fixed text and the blank
separators. -/
theorem no_sentiment_output_on_failed_fix :
    mainOutputs exnCall "gpt-4.1-mini" constLogits "cpu" =
      [Out.plain "Using device: cpu",
       Out.plain "Original Text: 'Misery' was the best movie I've seen since I was a small boy",
       Out.plain "Fixed Text: ", Out.plain "\n", Out.plain "\n",
       Out.plain "Original Text: 'Misery' was the bset moive I've seen snice I was a small boy",
       Out.plain "Fixed Text: ", Out.plain "\n", Out.plain "\n",
       Out.plain "Original Text: 'Misery' was the bset moive I've seen snice me were a small boy",
       Out.plain "Fixed Text: ", Out.plain "\n", Out.plain "\n"] := rfl

/-- The lines one loop iteration prints when the corrected text is
non-empty and the model returns one row for its batch of one: the original
text, the corrected text, a separator, then the single result — whose text
is the first character of the corrected sentence, as the zip over a bare
string produces it — with the predicted label and the three probability
lines in dict insertion order. -/
noncomputable def expectedBlock (t f : String) (q : ℝ × ℝ × ℝ) : List Out :=
  [Out.plain ("Original Text: " ++ t), Out.plain ("Fixed Text: " ++ f),
   Out.plain "\n",
   Out.plain ("Text: " ++ String.mk [f.data.headI]),
   Out.plain ("Predicted Sentiment: " ++ labelOf (npArgmax q)),
   Out.prob "Negative" q.1, Out.prob "Neutral" q.2.1, Out.prob "Positive" q.2.2,
   Out.plain "\n", Out.plain "\n"]

theorem driverStep_eq (call : ChatRequest → ChatOutcome) (modelName : String)
    (modelLogits : List String → List (ℝ × ℝ × ℝ)) (device : String)
    (st : TorchModule) (t : String)
    (hf : _fix_sentence call modelName t ≠ "")
    (hm : ∃ q, modelLogits [_fix_sentence call modelName t] = [q]) :
    driverStep call modelName modelLogits device st t =
      (expectedBlock t (_fix_sentence call modelName t)
        (softmax3 (modelLogits [_fix_sentence call modelName t]).headI),
       ⟨device, false⟩) := by
  obtain ⟨q, hq⟩ := hm
  obtain ⟨c, cs, hdata⟩ : ∃ c cs, (_fix_sentence call modelName t).data = c :: cs := by
    cases hd : (_fix_sentence call modelName t).data with
    | nil => exact absurd (String.ext_iff.mpr (by rw [hd])) hf
    | cons c cs => exact ⟨c, cs, rfl⟩
  have hres : (predict_sentiment modelLogits
      (.str (_fix_sentence call modelName t)) st device).1 =
      [(String.mk [c], labelOf (npArgmax (softmax3 q)), prob_mapping (softmax3 q))] := by
    have hstart : (predict_sentiment modelLogits
        (.str (_fix_sentence call modelName t)) st device).1 =
        (zip3 (pyIter (.str (_fix_sentence call modelName t)))
          (((modelLogits [_fix_sentence call modelName t]).map softmax3).map npArgmax)
          ((modelLogits [_fix_sentence call modelName t]).map softmax3)).map
            (fun tpp => (tpp.1, labelOf tpp.2.1, prob_mapping tpp.2.2)) := rfl
    have hiter : pyIter (.str (_fix_sentence call modelName t)) =
        String.mk [c] :: cs.map (fun ch => String.mk [ch]) := by
      simp [pyIter, hdata]
    rw [hstart, hq, hiter]
    simp [zip3_cons, zip3_nil_mid]
  have hheadI : (_fix_sentence call modelName t).data.headI = c := by
    rw [hdata]; rfl
  have hmod : (predict_sentiment modelLogits
      (.str (_fix_sentence call modelName t)) st device).2 =
      (⟨device, false⟩ : TorchModule) := rfl
  simp only [driverStep, hres, hmod, expectedBlock, hq, List.flatMap_cons,
    List.flatMap_nil, prob_mapping, List.map_cons, List.map_nil, hheadI]
  simp

theorem driverLoop_eq (call : ChatRequest → ChatOutcome) (modelName : String)
    (modelLogits : List String → List (ℝ × ℝ × ℝ)) (device : String)
    (ts : List String) (st : TorchModule)
    (hfix : ∀ t ∈ ts, _fix_sentence call modelName t ≠ "")
    (hml : ∀ s, ∃ q, modelLogits [s] = [q]) :
    (driverLoop call modelName modelLogits device ts st).1 =
      ts.flatMap (fun t => expectedBlock t (_fix_sentence call modelName t)
        (softmax3 (modelLogits [_fix_sentence call modelName t]).headI)) := by
  induction ts generalizing st with
  | nil => rfl
  | cons t ts ih =>
    rw [List.flatMap_cons]
    have hstep := driverStep_eq call modelName modelLogits device st t
      (hfix t (List.mem_cons_self _ _)) (hml _)
    simp only [driverLoop, hstep]
    rw [ih _ (fun u hu => hfix u (List.mem_cons_of_mem _ hu))]

/-- C9 amended: for each of the three example sentences, in order, the
driver prints the original text, then the correction result, then — when
the corrected text is non-empty (and the model yields its one row for the
batch of one) — the result's text line, the predicted label and the three
probability lines (rendered with the four-decimal float format); when the
correction stage returns the empty string, no label or probability line is
printed for that sentence. -/
theorem driver_prints_per_sentence (call : ChatRequest → ChatOutcome)
    (modelName : String) (modelLogits : List String → List (ℝ × ℝ × ℝ))
    (device : String)
    (hfix : ∀ t ∈ demoTexts, _fix_sentence call modelName t ≠ "")
    (hml : ∀ s, ∃ q, modelLogits [s] = [q]) :
    mainOutputs call modelName modelLogits device =
      Out.plain ("Using device: " ++ device) ::
      demoTexts.flatMap (fun t =>
        expectedBlock t (_fix_sentence call modelName t)
          (softmax3 (modelLogits [_fix_sentence call modelName t]).headI)) := by
  unfold mainOutputs
  rw [driverLoop_eq call modelName modelLogits device demoTexts loadedModel
    hfix hml]

/-- C9 witness: a correction stub that always succeeds and a model stub
with one all-zero row; every sentence gets its full printed block. -/
theorem driver_prints_per_sentence_witness :
    mainOutputs (okCall "Good.") "gpt-4.1-mini" constLogits "cpu" =
      Out.plain ("Using device: " ++ "cpu") ::
      demoTexts.flatMap (fun t =>
        expectedBlock t (_fix_sentence (okCall "Good.") "gpt-4.1-mini" t)
          (softmax3 (constLogits
            [_fix_sentence (okCall "Good.") "gpt-4.1-mini" t]).headI)) :=
  driver_prints_per_sentence (okCall "Good.") "gpt-4.1-mini" constLogits "cpu"
    (by decide) (fun _ => ⟨(0, 0, 0), rfl⟩)
